import Mathlib

/-!
# Verification of the tardis Monte Carlo transport kernel

Shallow embedding of tardis/montecarlo_multizone.pyx: the binary line
search, the macro-atom sampler, the packet mover, the geometry distance
functions, the StorageModel snapshot construction, and the per-packet
event loop, together with theorems checking the specification's claims.

Modelling conventions:
* 64-bit floating point state is modelled over the real numbers;
  int64 counters over ℤ (or ℕ where the C value is provably non-negative).
* The module-level Mersenne-Twister stream is modelled as an arbitrary
  stream u : ℕ → ℝ of draws, together with an explicit cursor in the
  packet state, one increment per rk_double call.
* C while-loops are realised by structural recursion on an explicit fuel
  argument; a result of none means the loop was still running after the
  given number of iterations.
* C pointers that the constructor may leave unassigned are modelled as
  Option values, none standing for the uninitialised pointer; reading
  through such a pointer (undefined behaviour in C) is modelled by
  substituting the empty array.
-/

namespace Tardis

/-- Speed of light in cm/s, the astropy cgs value (module constant c,
line 205 of montecarlo_multizone.pyx). -/
noncomputable def c : ℝ := 2.99792458e10

/-- Module constant inverse_c (line 206). -/
noncomputable def inverse_c : ℝ := 1 / c

/-- Sentinel distance for a missed intersection (line 204). -/
noncomputable def miss_distance : ℝ := 1e99

/-- Thomson cross-section in cm^2 (line 208). -/
noncomputable def sigma_thomson : ℝ := 6.652486e-25

/-- Module constant inverse_sigma_thomson (line 211). -/
noncomputable def inverse_sigma_thomson : ℝ := 1 / sigma_thomson

/-- Loop of binary_search (lines 213-230).  The C while-loop is realised
by structural recursion on the extra fuel argument; a fuel of
imax - imin suffices, because each iteration shrinks imax - imin by at
least one, so the loop guard always fails before the fuel runs out
(bsearchGo_fuel below).  nu[imid] is read with the probe value as the
getD default; the read is in range whenever the loop guard holds and
0 ≤ imin, imax ≤ nu.length. -/
def bsearchGo {α : Type} [LinearOrder α] (nu : List α) (x : α) : ℕ → ℕ → ℕ → ℕ
  | 0, imin, _ => imin + 1
  | fuel + 1, imin, imax =>
    if imax - imin > 2 then
      let imid := (imin + imax) / 2
      if nu.getD imid x < x then bsearchGo nu x fuel imin (imid + 1)
      else bsearchGo nu x fuel imid imax
    else imin + 1

/-- binary_search(nu, nu_insert, imin, imax) (lines 213-230): narrow
[imin, imax) until at most two elements remain and return imin + 1. -/
def binary_search {α : Type} [LinearOrder α] (nu : List α) (nu_insert : α)
    (imin imax : ℕ) : ℕ :=
  bsearchGo nu nu_insert (imax - imin) imin imax

/-- The immutable snapshot built by StorageModel.__init__ (lines 46-178),
restricted to the fields the transport kernel reads.  The macro-atom
pointer fields are Option values because the constructor assigns them
only when line_interaction_id >= 1, and (through the copy-paste slips at
lines 163 and 171) may leave some of them unassigned even then. -/
structure Storage where
  no_of_shells : ℕ
  r_inner : List ℝ
  r_outer : List ℝ
  v_inner : List ℝ
  time_explosion : ℝ
  inverse_time_explosion : ℝ
  electron_density : List ℝ
  inverse_electron_density : List ℝ
  line_list_nu : List ℝ
  line_lists_tau_sobolevs : List ℝ
  line_lists_tau_sobolevs_nd : ℕ
  no_of_lines : ℕ
  line_interaction_id : ℤ
  transition_probabilities : Option (List ℝ) := none
  transition_probabilities_nd : ℕ := 0
  line2level_upper : Option (List ℤ) := none
  block_references : Option (List ℤ) := none
  transition_type : Option (List ℤ) := none
  destination_level_id : Option (List ℤ) := none
  transition_line_id : Option (List ℤ) := none

/-- The Python model object as read by StorageModel.__init__.  The 2D
arrays are stored flattened row-major, as the kernel indexes them.  The
field transition_type_column is the macro_atom_data transition-type
column that the specification's data model describes (internal up > 0,
internal down 0, emission -1); the constructor under test never reads
it, which is exactly what claim C2 is about. -/
structure Model where
  packet_nus : List ℝ
  packet_mus : List ℝ
  packet_energies : List ℝ
  no_of_shells : ℕ
  r_inner : List ℝ
  r_outer : List ℝ
  v_inner : List ℝ
  time_explosion : ℝ
  electron_density : List ℝ
  line_list_nu : List ℝ
  tau_sobolevs : List ℝ
  tau_sobolevs_nd : ℕ
  line_interaction_id : ℤ
  transition_probabilities : List ℝ
  transition_probabilities_nd : ℕ
  lines_upper2level_reference_idx : List ℤ
  block_references : List ℤ
  transition_type_column : List ℤ
  destination_level_idx : List ℤ
  lines_idx : List ℤ

/-- StorageModel.__init__ (lines 92-178) restricted to the fields the
transport kernel reads.  The macro-atom block mirrors lines 151-171
assignment by assignment: line 163 loads the transition_type pointer
from the block_references column (not from the transition-type column),
line 168 assigns destination_level_idx to self.destination_level_id, and
line 171 then stores the lines_idx array into self.destination_level_id
again (instead of into self.transition_line_id), so the
transition_line_id pointer is never assigned. -/
noncomputable def storageInit (m : Model) : Storage :=
  let base : Storage :=
    { no_of_shells := m.no_of_shells
      r_inner := m.r_inner
      r_outer := m.r_outer
      v_inner := m.v_inner
      time_explosion := m.time_explosion
      inverse_time_explosion := 1 / m.time_explosion
      electron_density := m.electron_density
      inverse_electron_density := m.electron_density.map (fun x => 1 / x)
      line_list_nu := m.line_list_nu
      line_lists_tau_sobolevs := m.tau_sobolevs
      line_lists_tau_sobolevs_nd := m.tau_sobolevs_nd
      no_of_lines := m.line_list_nu.length
      line_interaction_id := m.line_interaction_id }
  if 1 ≤ m.line_interaction_id then
    let s1 := { base with
      transition_probabilities := some m.transition_probabilities
      transition_probabilities_nd := m.transition_probabilities_nd
      line2level_upper := some m.lines_upper2level_reference_idx
      block_references := some m.block_references }
    let s2 := { s1 with transition_type := some m.block_references }
    let s3 := { s2 with destination_level_id := some m.destination_level_idx }
    let s4 := { s3 with destination_level_id := some m.lines_idx }
    s4
  else base

/-- The mutable per-packet state: the pointers passed into
montecarlo_one_packet plus the function-locals of the main loop that
persist across iterations (tau_event, nu_line, the four candidate
distances, emission_line_id), the estimator arrays, and the RNG cursor. -/
structure PacketState where
  nu : ℝ
  energy : ℝ
  mu : ℝ
  r : ℝ
  shell_id : ℕ
  comov_nu : ℝ
  line_id : ℤ
  last_line : ℤ
  close_line : ℤ
  recently_crossed_boundary : ℤ
  tau_event : ℝ
  nu_line : ℝ
  d_inner : ℝ
  d_outer : ℝ
  d_line : ℝ
  d_electron : ℝ
  emission_line_id : ℤ
  js : List ℝ
  nubars : List ℝ
  rng : ℕ

/-- Result of move_packet: the returned Doppler factor and the values
written back through the r and mu pointers and into the estimators. -/
structure MoveResult where
  doppler_factor : ℝ
  r : ℝ
  mu : ℝ
  js : List ℝ
  nubars : List ℝ

/-- move_packet (lines 264-300).  Computes the Doppler factor; for
distance <= 0 it returns at once, mutating nothing (line 279-280);
otherwise it accumulates the estimators and updates radius and
direction cosine. -/
noncomputable def move_packet (r mu nu energy distance : ℝ) (js nubars : List ℝ)
    (inverse_t_exp : ℝ) (cur_zone_id : ℕ) : MoveResult :=
  let doppler_factor := 1 - (mu * r * inverse_t_exp * inverse_c)
  if distance ≤ 0 then
    { doppler_factor := doppler_factor, r := r, mu := mu, js := js, nubars := nubars }
  else
    let comov_energy := energy * doppler_factor
    let comov_nu := nu * doppler_factor
    let js' := js.set cur_zone_id (js.getD cur_zone_id 0 + comov_energy * distance)
    let nubars' := nubars.set cur_zone_id
      (nubars.getD cur_zone_id 0 + comov_energy * distance * comov_nu)
    let new_r := Real.sqrt (r ^ 2 + distance ^ 2 + 2 * r * distance * mu)
    { doppler_factor := doppler_factor, r := new_r, mu := (mu * r + distance) / new_r,
      js := js', nubars := nubars' }

/-- compute_distance2outer (lines 302-305). -/
noncomputable def compute_distance2outer (r mu r_outer : ℝ) : ℝ :=
  Real.sqrt (r_outer ^ 2 + ((mu ^ 2 - 1) * r ^ 2)) - (r * mu)

/-- compute_distance2inner (lines 307-319). -/
noncomputable def compute_distance2inner (r mu r_inner : ℝ) : ℝ :=
  let check := r_inner ^ 2 + (r ^ 2 * (mu ^ 2 - 1))
  if check < 0 then miss_distance
  else if mu < 0 then -r * mu - Real.sqrt check
  else miss_distance

/-- compute_distance2line (lines 321-345).  The function always returns
((comov_nu - nu_line) / nu) * c * t_exp; when comov_nu < nu_line it
additionally prints a warning with the packet state and carries on (it
does not raise).  The Boolean component records whether that warning
branch fired; the last_line, next_line and cur_zone_id arguments feed
only the warning text, exactly as in the source. -/
noncomputable def compute_distance2line (r mu nu nu_line t_exp inverse_t_exp
    last_line next_line : ℝ) (cur_zone_id : ℕ) : ℝ × Bool :=
  let doppler_factor := 1 - (mu * r * inverse_t_exp * inverse_c)
  let comov_nu := nu * doppler_factor
  (((comov_nu - nu_line) / nu) * c * t_exp,
   if comov_nu < nu_line then true else false)

/-- compute_distance2electron (lines 347-349); r and mu are unused in the
source as well. -/
noncomputable def compute_distance2electron (r mu tau_event inverse_ne : ℝ) : ℝ :=
  tau_event * inverse_ne * inverse_sigma_thomson

/-- Inner while-loop of the macro-atom sampler (lines 249-256):
accumulate transition probabilities from slot i on, until the running
sum exceeds event_random; then report the slot's type code, its target
level and the selected slot index.  The C loop is unbounded (it would
read past the array); none = not finished within fuel. -/
noncomputable def matom_inner (p_transition : List ℝ) (p_transition_nd : ℕ)
    (type_transition target_level_id : List ℤ) (cur_zone_id : ℕ)
    (event_random : ℝ) : ℕ → ℕ → ℝ → Option (ℤ × ℤ × ℕ)
  | 0, _, _ => none
  | fuel + 1, i, p =>
    let p' := p + p_transition.getD (cur_zone_id * p_transition_nd + i) 0
    if p' > event_random then
      some (type_transition.getD i 0, target_level_id.getD i 0, i)
    else
      matom_inner p_transition p_transition_nd type_transition target_level_id
        cur_zone_id event_random fuel (i + 1) p'

/-- The macro_atom sampler (lines 233-262): repeatedly draw
event_random, restart the accumulation at unroll_reference of the active
level, follow the selected transition, and stop when a slot with type
code -1 is selected, returning target_line_id of that slot together with
the advanced RNG cursor.  none = not finished within fuel. -/
noncomputable def matom (p_transition : List ℝ) (p_transition_nd : ℕ)
    (type_transition target_level_id target_line_id unroll_reference : List ℤ)
    (cur_zone_id : ℕ) (u : ℕ → ℝ) : ℕ → ℤ → ℕ → Option (ℤ × ℕ)
  | 0, _, _ => none
  | fuel + 1, activate_level, rng =>
    let event_random := u rng
    let i0 := (unroll_reference.getD activate_level.toNat 0).toNat
    match matom_inner p_transition p_transition_nd type_transition target_level_id
        cur_zone_id event_random (fuel + 1) i0 0 with
    | none => none
    | some (emit, new_level, i) =>
      if emit = -1 then some (target_line_id.getD i 0, rng + 1)
      else
        matom p_transition p_transition_nd type_transition target_level_id
          target_line_id unroll_reference cur_zone_id u fuel new_level (rng + 1)

/-- The close-line check at the end of the line branch (lines 810-812):
if not past the end of the list and the next line is within 1e-7
relative of nu_line, raise the close_line flag. -/
noncomputable def line_close_check (st : Storage) (s : PacketState) : PacketState :=
  if s.last_line = 0 then
    if abs (st.line_list_nu.getD s.line_id.toNat 0 - s.nu_line) / s.nu_line < 1e-7
    then { s with close_line := 1 } else s
  else s

/-- The line branch of the main loop (lines 710-813): read the Sobolev
depth of the current line, advance the cursor (capping at no_of_lines
and raising last_line), then either perform the line interaction
(move, isotropic re-emission at the line selected by the interaction
mode, fresh tau_event) or merely subtract tau_line from tau_event; in
both cases finish with the close-line check.  When the interaction mode
is neither 0 nor >= 1 the source falls through with the stale
emission_line_id local, which the state records. -/
noncomputable def montecarlo_line_event (st : Storage) (u : ℕ → ℝ) (mf : ℕ)
    (s0 : PacketState) : Option ((ℤ × PacketState) ⊕ PacketState) :=
  let tau_line := st.line_lists_tau_sobolevs.getD
    (s0.shell_id * st.line_lists_tau_sobolevs_nd + s0.line_id.toNat) 0
  let tau_electron := sigma_thomson * st.electron_density.getD s0.shell_id 0 * s0.d_line
  let tau_combined := tau_line + tau_electron
  let s1 := { s0 with line_id := s0.line_id + 1 }
  let s2 := if (st.no_of_lines : ℤ) ≤ s1.line_id
            then { s1 with line_id := (st.no_of_lines : ℤ), last_line := 1 } else s1
  if s2.tau_event < tau_combined then
    let mr := move_packet s2.r s2.mu s2.nu s2.energy s2.d_line s2.js s2.nubars
      st.inverse_time_explosion s2.shell_id
    let comov_current_energy := s2.energy * mr.doppler_factor
    let new_mu := 2 * u s2.rng - 1
    let inverse_doppler_factor :=
      1 / (1 - (new_mu * mr.r * st.inverse_time_explosion * inverse_c))
    let s3 := { s2 with r := mr.r, mu := new_mu, js := mr.js, nubars := mr.nubars }
    let res : Option (ℤ × ℕ) :=
      if st.line_interaction_id = 0 then some (s3.line_id, s3.rng + 1)
      else if 1 ≤ st.line_interaction_id then
        matom (st.transition_probabilities.getD []) st.transition_probabilities_nd
          (st.transition_type.getD []) (st.destination_level_id.getD [])
          (st.transition_line_id.getD []) (st.block_references.getD [])
          s3.shell_id u mf ((st.line2level_upper.getD []).getD s3.line_id.toNat 0)
          (s3.rng + 1)
      else some (s3.emission_line_id, s3.rng + 1)
    match res with
    | none => none
    | some (emission_line_id, rng') =>
      let s4 := { s3 with
        nu := st.line_list_nu.getD emission_line_id.toNat 0 * inverse_doppler_factor
        nu_line := st.line_list_nu.getD emission_line_id.toNat 0
        line_id := emission_line_id + 1
        emission_line_id := emission_line_id
        energy := comov_current_energy * inverse_doppler_factor
        tau_event := -Real.log (u rng')
        recently_crossed_boundary := 0
        rng := rng' + 1 }
      some (Sum.inr (line_close_check st s4))
  else
    let s3 := { s2 with tau_event := s2.tau_event - tau_line }
    some (Sum.inr (line_close_check st s3))

/-- The outer-boundary branch (lines 612-636): move by d_outer, then
either step one shell outwards or, in the outermost shell, exit with
reabsorbed = 0. -/
noncomputable def outer_boundary_event (st : Storage) (s0 : PacketState) :
    (ℤ × PacketState) ⊕ PacketState :=
  let mr := move_packet s0.r s0.mu s0.nu s0.energy s0.d_outer s0.js s0.nubars
    st.inverse_time_explosion s0.shell_id
  let s := { s0 with r := mr.r, mu := mr.mu, js := mr.js, nubars := mr.nubars }
  if s.shell_id < st.no_of_shells - 1 then
    Sum.inr { s with shell_id := s.shell_id + 1, recently_crossed_boundary := 1 }
  else
    Sum.inl (0, s)

/-- The inner-boundary branch (lines 641-658): move by d_inner, then
either step one shell inwards or, in shell 0, exit with reabsorbed = 1. -/
noncomputable def inner_boundary_event (st : Storage) (s0 : PacketState) :
    (ℤ × PacketState) ⊕ PacketState :=
  let mr := move_packet s0.r s0.mu s0.nu s0.energy s0.d_inner s0.js s0.nubars
    st.inverse_time_explosion s0.shell_id
  let s := { s0 with r := mr.r, mu := mr.mu, js := mr.js, nubars := mr.nubars }
  if 0 < s.shell_id then
    Sum.inr { s with shell_id := s.shell_id - 1, recently_crossed_boundary := -1 }
  else
    Sum.inl (1, s)

/-- The electron-scatter branch (lines 664-707): move by d_electron,
transform to the comoving frame with the returned Doppler factor, draw
an isotropic new mu, transform back, draw a fresh tau_event, and clear
recently_crossed_boundary.  The line cursor fields are not touched. -/
noncomputable def electron_event (st : Storage) (u : ℕ → ℝ) (s : PacketState) :
    PacketState :=
  let mr := move_packet s.r s.mu s.nu s.energy s.d_electron s.js s.nubars
    st.inverse_time_explosion s.shell_id
  let comov_nu := s.nu * mr.doppler_factor
  let comov_energy := s.energy * mr.doppler_factor
  let new_mu := 2 * u s.rng - 1
  let inverse_doppler_factor :=
    1 / (1 - (new_mu * mr.r * st.inverse_time_explosion * inverse_c))
  let new_tau := -Real.log (u (s.rng + 1))
  { s with
    r := mr.r
    mu := new_mu
    nu := comov_nu * inverse_doppler_factor
    energy := comov_energy * inverse_doppler_factor
    js := mr.js
    nubars := mr.nubars
    tau_event := new_tau
    recently_crossed_boundary := 0
    rng := s.rng + 2 }

/-- The four-way branch of the main loop (lines 612-710): an if/elif
chain of strict comparisons.  When no guard holds (a tie at the minimum
distance) the while-loop simply runs again with the state unchanged,
which the final else models. -/
noncomputable def montecarlo_dispatch (st : Storage) (u : ℕ → ℝ) (mf : ℕ)
    (s : PacketState) : Option ((ℤ × PacketState) ⊕ PacketState) :=
  if s.d_outer < s.d_inner ∧ s.d_outer < s.d_electron ∧ s.d_outer < s.d_line then
    some (outer_boundary_event st s)
  else if s.d_inner < s.d_outer ∧ s.d_inner < s.d_electron ∧ s.d_inner < s.d_line then
    some (inner_boundary_event st s)
  else if s.d_electron < s.d_outer ∧ s.d_electron < s.d_inner ∧ s.d_electron < s.d_line then
    some (Sum.inr (electron_event st u s))
  else if s.d_line < s.d_outer ∧ s.d_line < s.d_inner ∧ s.d_line < s.d_electron then
    montecarlo_line_event st u mf s
  else
    some (Sum.inr s)

/-- One iteration of the main loop (lines 533-813): refresh nu_line when
not past the end of the line list, then either honour a pending
close_line (d_line = 0, other distances stale from the previous
iteration, lines 539-543) or recompute the four candidate distances
(lines 547-577), and dispatch. -/
noncomputable def montecarlo_step (st : Storage) (u : ℕ → ℝ) (mf : ℕ)
    (s0 : PacketState) : Option ((ℤ × PacketState) ⊕ PacketState) :=
  let s1 := if s0.last_line = 0
            then { s0 with nu_line := st.line_list_nu.getD s0.line_id.toNat 0 }
            else s0
  let s2 :=
    if s1.close_line = 1 then { s1 with d_line := 0, close_line := 0 }
    else
      let d_inner := if s1.recently_crossed_boundary = 1 then miss_distance
        else compute_distance2inner s1.r s1.mu (st.r_inner.getD s1.shell_id 0)
      let d_outer := compute_distance2outer s1.r s1.mu (st.r_outer.getD s1.shell_id 0)
      let d_line := if s1.last_line = 1 then miss_distance
        else (compute_distance2line s1.r s1.mu s1.nu s1.nu_line st.time_explosion
          st.inverse_time_explosion (st.line_list_nu.getD (s1.line_id - 1).toNat 0)
          (st.line_list_nu.getD (s1.line_id + 1).toNat 0) s1.shell_id).1
      let d_electron := compute_distance2electron s1.r s1.mu s1.tau_event
        (st.inverse_electron_density.getD s1.shell_id 0)
      { s1 with
        d_inner := d_inner
        d_outer := d_outer
        d_line := d_line
        d_electron := d_electron }
  montecarlo_dispatch st u mf s2

/-- The main loop of montecarlo_one_packet, iterated up to fuel times.
some (z, s) = the loop broke out with reabsorbed = z and final pointer
state s; none = still running (or a macro-atom call still running)
after fuel iterations. -/
noncomputable def montecarlo_run (st : Storage) (u : ℕ → ℝ) (mf : ℕ) :
    ℕ → PacketState → Option (ℤ × PacketState)
  | 0, _ => none
  | fuel + 1, s =>
    match montecarlo_step st u mf s with
    | none => none
    | some (Sum.inl z) => some z
    | some (Sum.inr s') => montecarlo_run st u mf fuel s'

/-- montecarlo_one_packet (lines 496-821): draw the initial tau_event
(line 527) and run the main loop. -/
noncomputable def montecarlo_one_packet (st : Storage) (u : ℕ → ℝ) (mf fuel : ℕ)
    (s : PacketState) : Option (ℤ × PacketState) :=
  montecarlo_run st u mf fuel
    { s with tau_event := -Real.log (u s.rng), rng := s.rng + 1 }

/-- Per-packet initialisation in montecarlo_radial1d (lines 446-473):
start at the inner boundary of shell 0, compute the comoving frequency,
run binary_search over the whole line list, and flag last_line exactly
when the search returned no_of_lines.  The function-locals of
montecarlo_one_packet (lines 498-524) start at 0; js and nubars are the
zero estimator arrays of lines 173-178. -/
noncomputable def packet_init (st : Storage) (nu mu energy : ℝ) : PacketState :=
  let r := st.r_inner.getD 0 0
  let comov := nu * (1 - (mu * r * st.inverse_time_explosion * inverse_c))
  let line_id := binary_search st.line_list_nu comov 0 st.no_of_lines
  { nu := nu
    energy := energy
    mu := mu
    r := r
    shell_id := 0
    comov_nu := comov
    line_id := (line_id : ℤ)
    last_line := if line_id = st.no_of_lines then 1 else 0
    close_line := 0
    recently_crossed_boundary := 1
    tau_event := 0
    nu_line := 0
    d_inner := 0
    d_outer := 0
    d_line := 0
    d_electron := 0
    emission_line_id := 0
    js := List.replicate st.no_of_shells 0
    nubars := List.replicate st.no_of_shells 0
    rng := 0 }

/-- The driver epilogue per packet (lines 478-484): a reabsorbed packet
is recorded with negated frequency and energy, an escaped one with the
values as they stand; any other flag value would leave the zero-filled
output slots (prev) untouched. -/
noncomputable def record_output (reabsorbed : ℤ) (nu energy : ℝ) (prev : ℝ × ℝ) :
    ℝ × ℝ :=
  if reabsorbed = 1 then (-nu, -energy)
  else if reabsorbed = 0 then (nu, energy) else prev

/-- The four handlers of the event loop. -/
inductive EventKind : Type
  | outer
  | inner
  | electron
  | line
deriving DecidableEq

/-- The guard chain of the dispatch (lines 612-710) as a pure selection
function of the four candidate distances: the handler whose guard fires,
or none when no guard holds. -/
noncomputable def selected_event (d_outer d_inner d_electron d_line : ℝ) :
    Option EventKind :=
  if d_outer < d_inner ∧ d_outer < d_electron ∧ d_outer < d_line then
    some EventKind.outer
  else if d_inner < d_outer ∧ d_inner < d_electron ∧ d_inner < d_line then
    some EventKind.inner
  else if d_electron < d_outer ∧ d_electron < d_inner ∧ d_electron < d_line then
    some EventKind.electron
  else if d_line < d_outer ∧ d_line < d_inner ∧ d_line < d_electron then
    some EventKind.line
  else none

/-- The candidate distance belonging to each handler. -/
def event_distance : EventKind → ℝ → ℝ → ℝ → ℝ → ℝ
  | EventKind.outer, d_outer, _, _, _ => d_outer
  | EventKind.inner, _, d_inner, _, _ => d_inner
  | EventKind.electron, _, _, d_electron, _ => d_electron
  | EventKind.line, _, _, _, d_line => d_line

/-- Concrete model for claim C2: interaction mode 2 (macro atom), one
macro level whose block [0, 1) holds a single transition slot, an
emission according to the transition-type column (code -1). -/
noncomputable def model_c2 : Model :=
  { packet_nus := [1]
    packet_mus := [1]
    packet_energies := [1]
    no_of_shells := 1
    r_inner := [1]
    r_outer := [2]
    v_inner := [0]
    time_explosion := 1
    electron_density := [1]
    line_list_nu := [5, 3]
    tau_sobolevs := [0, 0]
    tau_sobolevs_nd := 2
    line_interaction_id := 2
    transition_probabilities := [1]
    transition_probabilities_nd := 1
    lines_upper2level_reference_idx := [0, 0]
    block_references := [0, 1]
    transition_type_column := [-1]
    destination_level_idx := [0]
    lines_idx := [0] }

/-- Concrete model for claim C3: interaction mode 1 (downbranch), one
transition slot emitting line 0, whose destination-level and line-id
columns are distinguishable ([3] versus [7]). -/
noncomputable def model_c3 : Model :=
  { packet_nus := [1]
    packet_mus := [1]
    packet_energies := [1]
    no_of_shells := 1
    r_inner := [1]
    r_outer := [2]
    v_inner := [0]
    time_explosion := 1
    electron_density := [1]
    line_list_nu := [5, 3]
    tau_sobolevs := [0, 0]
    tau_sobolevs_nd := 2
    line_interaction_id := 1
    transition_probabilities := [1]
    transition_probabilities_nd := 1
    lines_upper2level_reference_idx := [0, 0]
    block_references := [0, 1]
    transition_type_column := [-1]
    destination_level_idx := [3]
    lines_idx := [7] }

/-- A trivial snapshot for dispatch-level witnesses. -/
noncomputable def storage_triv : Storage :=
  { no_of_shells := 1
    r_inner := [1]
    r_outer := [2]
    v_inner := [0]
    time_explosion := 1
    inverse_time_explosion := 1
    electron_density := [1]
    inverse_electron_density := [1]
    line_list_nu := [5]
    line_lists_tau_sobolevs := [0]
    line_lists_tau_sobolevs_nd := 1
    no_of_lines := 1
    line_interaction_id := 0 }

/-- A constant RNG stream for witnesses whose handlers draw nothing that
matters. -/
noncomputable def u_triv : ℕ → ℝ := fun _ => 1 / 2

/-- Packet state whose four candidate distances all tie at 1: the input
of the C4 counterexample. -/
noncomputable def s_tie : PacketState :=
  { nu := 1
    energy := 1
    mu := 0
    r := 1
    shell_id := 0
    comov_nu := 1
    line_id := 1
    last_line := 1
    close_line := 0
    recently_crossed_boundary := 1
    tau_event := 1
    nu_line := 0
    d_inner := 1
    d_outer := 1
    d_line := 1
    d_electron := 1
    emission_line_id := 0
    js := [0]
    nubars := [0]
    rng := 0 }

/-- Snapshot for the C5 counterexample: one shell [1, 2], one line, an
electron density tuned so that d_electron equals tau_event exactly. -/
noncomputable def storage_c5 : Storage :=
  { no_of_shells := 1
    r_inner := [1]
    r_outer := [2]
    v_inner := [0]
    time_explosion := 1
    inverse_time_explosion := 1
    electron_density := [inverse_sigma_thomson]
    inverse_electron_density := [sigma_thomson]
    line_list_nu := [42]
    line_lists_tau_sobolevs := [0]
    line_lists_tau_sobolevs_nd := 1
    no_of_lines := 1
    line_interaction_id := 0 }

/-- RNG stream whose every draw is exp(-1): every tau_event drawn from
it is exactly 1. -/
noncomputable def u_c5 : ℕ → ℝ := fun _ => Real.exp (-1)

/-- The state the C5 packet is stuck in: both d_outer and d_electron are
1, the line list is exhausted and the inner boundary is masked, so the
four distances tie at the minimum and no dispatch guard fires. -/
noncomputable def s_c5 : PacketState :=
  { nu := 1
    energy := 1
    mu := 1
    r := 1
    shell_id := 0
    comov_nu := 1 - inverse_c
    line_id := 1
    last_line := 1
    close_line := 0
    recently_crossed_boundary := 1
    tau_event := 1
    nu_line := 0
    d_inner := miss_distance
    d_outer := 1
    d_line := miss_distance
    d_electron := 1
    emission_line_id := 0
    js := [0]
    nubars := [0]
    rng := 1 }

/-- The same packet as it enters the main loop, before the first
iteration has filled in the four distance locals. -/
noncomputable def s_c5start : PacketState :=
  { s_c5 with
    d_inner := 0
    d_outer := 0
    d_line := 0
    d_electron := 0 }

/-- State for the C5 witness: a pending close_line, so the iteration
reuses the stored distances with d_line reset to 0, and the stored
d_inner = -2 wins; move_packet with a non-positive distance then leaves
the state alone and shell 0 exits through the inner boundary. -/
noncomputable def s_c5w : PacketState :=
  { nu := 2
    energy := 3
    mu := 0
    r := 1
    shell_id := 0
    comov_nu := 2
    line_id := 1
    last_line := 1
    close_line := 1
    recently_crossed_boundary := 0
    tau_event := 1
    nu_line := 4
    d_inner := -2
    d_outer := 5
    d_line := 9
    d_electron := 6
    emission_line_id := 0
    js := [0]
    nubars := [0]
    rng := 0 }

/-- The C5 witness state as the exiting iteration leaves it. -/
noncomputable def s_c5wx : PacketState :=
  { s_c5w with
    d_line := 0
    close_line := 0 }

/-- State for the C9 witness: the stored d_electron = 1 is strictly the
smallest of the four stored distances. -/
noncomputable def s_c9 : PacketState :=
  { nu := 2
    energy := 3
    mu := 0
    r := 1
    shell_id := 0
    comov_nu := 2
    line_id := 5
    last_line := 0
    close_line := 0
    recently_crossed_boundary := 1
    tau_event := 1
    nu_line := 4
    d_inner := 3
    d_outer := 2
    d_line := 4
    d_electron := 1
    emission_line_id := 0
    js := [0]
    nubars := [0]
    rng := 3 }

/-!  ## Theorems  -/

/-- Fuel adequacy for the binary-search loop: any two fuels at least
imax - imin give the same result, so the fuel argument is invisible for
the call binary_search makes. -/
theorem bsearchGo_fuel_eq {α : Type} [LinearOrder α] (nu : List α) (x : α) :
    ∀ (f g imin imax : ℕ), imax - imin ≤ f → imax - imin ≤ g →
      bsearchGo nu x f imin imax = bsearchGo nu x g imin imax := by
  intro f
  induction f with
  | zero =>
    intro g imin imax hf hg
    cases g with
    | zero => rfl
    | succ g' =>
      simp only [bsearchGo]
      rw [if_neg (by omega)]
  | succ f' ih =>
    intro g imin imax hf hg
    cases g with
    | zero =>
      simp only [bsearchGo]
      rw [if_neg (by omega)]
    | succ g' =>
      simp only [bsearchGo]
      by_cases hgd : imax - imin > 2
      · rw [if_pos hgd, if_pos hgd]
        by_cases hc : nu.getD ((imin + imax) / 2) x < x
        · rw [if_pos hc, if_pos hc]
          exact ih g' imin ((imin + imax) / 2 + 1) (by omega) (by omega)
        · rw [if_neg hc, if_neg hc]
          exact ih g' ((imin + imax) / 2) imax (by omega) (by omega)
      · rw [if_neg hgd, if_neg hgd]

/-- The binary-search loop never reaches imax - 1: whenever at least two
indices remain, the result is at most imax - 1. -/
theorem bsearchGo_le {α : Type} [LinearOrder α] (nu : List α) (x : α) :
    ∀ (fuel imin imax : ℕ), imin + 2 ≤ imax →
      bsearchGo nu x fuel imin imax ≤ imax - 1 := by
  intro fuel
  induction fuel with
  | zero =>
    intro imin imax h
    simp only [bsearchGo]
    omega
  | succ n ih =>
    intro imin imax h
    simp only [bsearchGo]
    by_cases hg : imax - imin > 2
    · rw [if_pos hg]
      by_cases hc : nu.getD ((imin + imax) / 2) x < x
      · rw [if_pos hc]
        have := ih imin ((imin + imax) / 2 + 1) (by omega)
        omega
      · rw [if_neg hc]
        have := ih ((imin + imax) / 2) imax (by omega)
        omega
    · rw [if_neg hg]
      omega

/-- For a table of at least two lines, binary_search over the whole
table can never return the length L: its result is at most L - 1, so
the caller's off-the-red-end check (line 459) can never fire. -/
theorem binary_search_le_pred {α : Type} [LinearOrder α] (nu : List α) (x : α)
    (L : ℕ) (h : 2 ≤ L) : binary_search nu x 0 L ≤ L - 1 := by
  unfold binary_search
  simpa using bsearchGo_le nu x (L - 0) 0 L (by omega)

/-- C1: FALSIFIED BY THE CODE.  On the strictly decreasing table
[40, 30, 20, 10] with nu_insert = 5 below the reddest entry, no index i
satisfies nu[i] <= nu_insert, so the claim requires binary_search to
return L = 4 (which would make the caller set last_line = 1); the code
returns 3 instead, and line_list_nu[3] = 10 > 5.  In general, for any
table and any probe the result over a range of length L ≥ 2 is at most
L - 1, so the off-the-red-end value L is never returned and the
caller's last_line check is unreachable. -/
theorem C1_binary_search_off_red_end :
    binary_search ([40, 30, 20, 10] : List ℚ) 5 0 4 = 3 ∧
    (∀ i, i < 4 → ¬ ([40, 30, 20, 10] : List ℚ).getD i 0 ≤ 5) ∧
    (3 : ℕ) ≠ 4 ∧
    (∀ (nu : List ℚ) (x : ℚ) (L : ℕ), 2 ≤ L → binary_search nu x 0 L ≤ L - 1) :=
  ⟨by decide, by decide, by decide,
   fun nu x L h => binary_search_le_pred nu x L h⟩

/-- C2: FALSIFIED BY THE CODE.  Line 163 loads the transition_type
array from the block_references column for every model handed to the
transport kernel with line_interaction_id >= 1; in particular for the
C2 model (a single emission transition, type code -1, block references
[0, 1]) the snapshot's transition_type is [0, 1]: slot 0 holds 0, not
the emission code -1 that the claim requires. -/
theorem C2_transition_type_is_block_references :
    (∀ m : Model, 1 ≤ m.line_interaction_id →
      (storageInit m).transition_type = some m.block_references) ∧
    (storageInit model_c2).transition_type = some model_c2.block_references ∧
    (storageInit model_c2).transition_type ≠ some model_c2.transition_type_column ∧
    model_c2.transition_type_column.getD 0 0 = -1 ∧
    ((storageInit model_c2).transition_type.getD []).getD 0 0 = 0 := by
  refine ⟨?_, rfl, ?_, rfl, rfl⟩
  · intro m h
    unfold storageInit
    rw [if_pos h]
  · decide

/-- C3: FALSIFIED BY THE CODE.  Line 171 stores the lines_idx array
into self.destination_level_id instead of self.transition_line_id, so
the transition_line_id pointer that montecarlo_one_packet hands to the
macro-atom sampler as target_line_id is never assigned (modelled as
none), and destination_level_id ends up holding the lines_idx column. -/
theorem C3_transition_line_id_unassigned :
    (∀ m : Model, (storageInit m).transition_line_id = none ∧
      (1 ≤ m.line_interaction_id →
        (storageInit m).destination_level_id = some m.lines_idx)) ∧
    (storageInit model_c3).transition_line_id = none ∧
    (storageInit model_c3).destination_level_id = some model_c3.lines_idx ∧
    model_c3.lines_idx ≠ model_c3.destination_level_idx := by
  refine ⟨?_, rfl, rfl, ?_⟩
  · intro m
    constructor
    · unfold storageInit
      split_ifs <;> rfl
    · intro h
      unfold storageInit
      rw [if_pos h]
  · decide

/-- C10: for any distance d ≤ 0 — zero or negative — move_packet
returns the current Doppler factor 1 - mu*r/(c*t_exp) and leaves r, mu
and the estimator accumulators untouched. -/
theorem C10_move_packet_nonpositive (r mu nu energy distance : ℝ)
    (js nubars : List ℝ) (inverse_t_exp : ℝ) (cur_zone_id : ℕ)
    (h : distance ≤ 0) :
    move_packet r mu nu energy distance js nubars inverse_t_exp cur_zone_id =
      { doppler_factor := 1 - (mu * r * inverse_t_exp * inverse_c)
        r := r
        mu := mu
        js := js
        nubars := nubars } ∧
    (∀ t_exp : ℝ, t_exp ≠ 0 → inverse_t_exp = 1 / t_exp →
      1 - (mu * r * inverse_t_exp * inverse_c) = 1 - mu * r / (c * t_exp)) := by
  constructor
  · unfold move_packet
    rw [if_pos h]
  · intro t ht hinv
    subst hinv
    have hc : c ≠ 0 := by unfold c; norm_num
    unfold inverse_c
    field_simp
    ring

/-- C10 witness: the theorem at the concrete input d = -1. -/
theorem C10_move_packet_nonpositive_witness :
    ((-1 : ℝ) ≤ 0) ∧
    move_packet 2 (1 / 2) 1 1 (-1) [0] [0] (1 / 3) 0 =
      { doppler_factor := 1 - ((1 / 2) * 2 * (1 / 3) * inverse_c)
        r := 2
        mu := 1 / 2
        js := [0]
        nubars := [0] } ∧
    (1 : ℝ) - ((1 / 2) * 2 * (1 / 3) * inverse_c) = 1 - (1 / 2) * 2 / (c * 3) := by
  refine ⟨by norm_num, ?_, ?_⟩
  · exact (C10_move_packet_nonpositive 2 (1 / 2) 1 1 (-1) [0] [0] (1 / 3) 0
      (by norm_num)).1
  · exact (C10_move_packet_nonpositive 2 (1 / 2) 1 1 (-1) [0] [0] (1 / 3) 0
      (by norm_num)).2 3 (by norm_num) (by norm_num)

/-- C7: compute_distance2line is total: it always returns
((nu*D - nu_line)/nu)*c*t_exp with D = 1 - mu*r*inverse_t_exp/c, and
when the contract nu*D ≥ nu_line is violated it only raises its warning
flag (the printed log) and still returns that — now negative — value
instead of aborting. -/
theorem C7_distance2line_total (r mu nu nu_line t_exp inverse_t_exp ll nl : ℝ)
    (z : ℕ) :
    (compute_distance2line r mu nu nu_line t_exp inverse_t_exp ll nl z).1 =
      ((nu * (1 - (mu * r * inverse_t_exp * inverse_c)) - nu_line) / nu) * c * t_exp ∧
    (0 < nu → 0 < t_exp →
      nu * (1 - (mu * r * inverse_t_exp * inverse_c)) < nu_line →
      (compute_distance2line r mu nu nu_line t_exp inverse_t_exp ll nl z).1 < 0 ∧
      (compute_distance2line r mu nu nu_line t_exp inverse_t_exp ll nl z).2 = true) := by
  have hc : (0 : ℝ) < c := by unfold c; norm_num
  refine ⟨rfl, fun hnu ht hv => ⟨?_, ?_⟩⟩
  · have h1 : nu * (1 - (mu * r * inverse_t_exp * inverse_c)) - nu_line < 0 := by
      linarith
    have h2 : (nu * (1 - (mu * r * inverse_t_exp * inverse_c)) - nu_line) / nu < 0 :=
      div_neg_of_neg_of_pos h1 hnu
    show ((nu * (1 - (mu * r * inverse_t_exp * inverse_c)) - nu_line) / nu) * c * t_exp < 0
    exact mul_neg_of_neg_of_pos (mul_neg_of_neg_of_pos h2 hc) ht
  · show (if nu * (1 - (mu * r * inverse_t_exp * inverse_c)) < nu_line
        then true else false) = true
    rw [if_pos hv]

/-- C7 witness: the theorem at r = 0, mu = 0, nu = 1, nu_line = 2,
t_exp = 1, where the comoving frequency 1 is below the line. -/
theorem C7_distance2line_total_witness :
    (0 : ℝ) < 1 ∧ (0 : ℝ) < 1 ∧
    (1 : ℝ) * (1 - (0 * 0 * 1 * inverse_c)) < 2 ∧
    (compute_distance2line 0 0 1 2 1 1 0 0 0).1 =
      (((1 : ℝ) * (1 - (0 * 0 * 1 * inverse_c)) - 2) / 1) * c * 1 ∧
    ((compute_distance2line 0 0 1 2 1 1 0 0 0).1 < 0 ∧
      (compute_distance2line 0 0 1 2 1 1 0 0 0).2 = true) := by
  have hv : (1 : ℝ) * (1 - (0 * 0 * 1 * inverse_c)) < 2 := by norm_num
  refine ⟨by norm_num, by norm_num, hv, ?_, ?_⟩
  · exact (C7_distance2line_total 0 0 1 2 1 1 0 0 0).1
  · exact (C7_distance2line_total 0 0 1 2 1 1 0 0 0).2 (by norm_num) (by norm_num) hv

/-- C8: for radii 0 ≤ r_in ≤ r ≤ r_out and any direction cosine
mu ∈ [-1, 1], the discriminant of the outer-boundary distance is
non-negative (the square root is well defined) and the distance
returned by compute_distance2outer is non-negative. -/
theorem C8_outer_distance_nonneg (r mu r_in r_out : ℝ) (h0 : 0 ≤ r_in)
    (h1 : r_in ≤ r) (h2 : r ≤ r_out) (hm1 : -1 ≤ mu) (hm2 : mu ≤ 1) :
    0 ≤ r_out ^ 2 + (mu ^ 2 - 1) * r ^ 2 ∧
    0 ≤ compute_distance2outer r mu r_out := by
  have hr : 0 ≤ r := le_trans h0 h1
  have hrr : r ^ 2 ≤ r_out ^ 2 := by nlinarith
  have hdisc : 0 ≤ r_out ^ 2 + (mu ^ 2 - 1) * r ^ 2 := by
    nlinarith [sq_nonneg (mu * r)]
  refine ⟨hdisc, ?_⟩
  unfold compute_distance2outer
  rcases le_or_lt mu 0 with hmu | hmu
  · have hrm : r * mu ≤ 0 := by nlinarith
    have hs := Real.sqrt_nonneg (r_out ^ 2 + (mu ^ 2 - 1) * r ^ 2)
    linarith
  · have hrm : 0 ≤ r * mu := mul_nonneg hr hmu.le
    have hsq := Real.sq_sqrt hdisc
    have hs := Real.sqrt_nonneg (r_out ^ 2 + (mu ^ 2 - 1) * r ^ 2)
    nlinarith [sq_nonneg (Real.sqrt (r_out ^ 2 + (mu ^ 2 - 1) * r ^ 2) - r * mu),
      sq_nonneg (Real.sqrt (r_out ^ 2 + (mu ^ 2 - 1) * r ^ 2) + r * mu)]

/-- C8 witness: the theorem at r_in = 1, r = 1, mu = 0, r_out = 2. -/
theorem C8_outer_distance_nonneg_witness :
    (0 : ℝ) ≤ 1 ∧ (1 : ℝ) ≤ 1 ∧ (1 : ℝ) ≤ 2 ∧ (-1 : ℝ) ≤ 0 ∧ (0 : ℝ) ≤ 1 ∧
    (0 ≤ (2 : ℝ) ^ 2 + ((0 : ℝ) ^ 2 - 1) * (1 : ℝ) ^ 2 ∧
      0 ≤ compute_distance2outer 1 0 2) := by
  refine ⟨by norm_num, by norm_num, by norm_num, by norm_num, by norm_num, ?_⟩
  exact C8_outer_distance_nonneg 1 0 1 2 (by norm_num) (by norm_num) (by norm_num)
    (by norm_num) (by norm_num)

/-- C4 counterexample: at the all-tied assignment d_outer = d_inner =
d_electron = d_line = 1, the selection chain of strict comparisons picks
no handler, and the dispatched iteration returns the packet state
unchanged (no move, no cursor advance, no rng draw, no flag change) —
refuting the claim that exactly one handler executes for every
assignment of the four distances, ties included. -/
theorem C4_tie_no_handler :
    selected_event 1 1 1 1 = none ∧
    montecarlo_dispatch storage_triv u_triv 0 s_tie = some (Sum.inr s_tie) := by
  constructor
  · unfold selected_event
    norm_num
  · unfold montecarlo_dispatch
    norm_num [s_tie]

/-- C4 (amended): every iteration executes at most one handler, namely
the one whose candidate distance is strictly below the other three (in
which case that distance is the minimum of the four); when the minimum
is attained by two or more candidates simultaneously, no handler
executes and the iteration returns the state unchanged. -/
theorem C4_dispatch_argmin (st : Storage) (u : ℕ → ℝ) (mf : ℕ) (s : PacketState) :
    montecarlo_dispatch st u mf s =
      (match selected_event s.d_outer s.d_inner s.d_electron s.d_line with
       | some EventKind.outer => some (outer_boundary_event st s)
       | some EventKind.inner => some (inner_boundary_event st s)
       | some EventKind.electron => some (Sum.inr (electron_event st u s))
       | some EventKind.line => montecarlo_line_event st u mf s
       | none => some (Sum.inr s)) ∧
    (∀ e, selected_event s.d_outer s.d_inner s.d_electron s.d_line = some e →
      event_distance e s.d_outer s.d_inner s.d_electron s.d_line =
        min (min s.d_outer s.d_inner) (min s.d_electron s.d_line)) := by
  constructor
  · unfold montecarlo_dispatch selected_event
    split_ifs <;> rfl
  · intro e he
    unfold selected_event at he
    split_ifs at he with h1 h2 h3 h4
    · obtain ⟨ha, hb, hc⟩ := h1
      cases Option.some.inj he
      show s.d_outer = _
      rw [min_eq_left ha.le, min_eq_left (le_min hb.le hc.le)]
    · obtain ⟨ha, hb, hc⟩ := h2
      cases Option.some.inj he
      show s.d_inner = _
      rw [min_eq_right ha.le, min_eq_left (le_min hb.le hc.le)]
    · obtain ⟨ha, hb, hc⟩ := h3
      cases Option.some.inj he
      show s.d_electron = _
      rw [min_eq_left hc.le, min_eq_right (le_min ha.le hb.le)]
    · obtain ⟨ha, hb, hc⟩ := h4
      cases Option.some.inj he
      show s.d_line = _
      rw [min_eq_right hc.le, min_eq_right (le_min ha.le hb.le)]

/-- The line branch never breaks out of the main loop: it returns either
a continuation state or none (a macro-atom call still running). -/
theorem line_event_no_exit (st : Storage) (u : ℕ → ℝ) (mf : ℕ) (s : PacketState)
    (ex : ℤ × PacketState) : montecarlo_line_event st u mf s ≠ some (Sum.inl ex) := by
  intro h
  unfold montecarlo_line_event at h
  simp only [apply_ite PacketState.tau_event, ite_self] at h
  split at h
  all_goals try split at h
  all_goals try split at h
  all_goals simp at h

/-- Inverting an exit of the dispatch: the loop breaks only in the outer
branch of the outermost shell with reabsorbed = 0, or in the inner
branch of shell 0 with reabsorbed = 1. -/
theorem dispatch_exit_inv (st : Storage) (u : ℕ → ℝ) (mf : ℕ) (s : PacketState)
    (z : ℤ) (s' : PacketState)
    (h : montecarlo_dispatch st u mf s = some (Sum.inl (z, s'))) :
    (z = 0 ∧ (s.d_outer < s.d_inner ∧ s.d_outer < s.d_electron ∧
        s.d_outer < s.d_line) ∧ ¬ s.shell_id < st.no_of_shells - 1) ∨
    (z = 1 ∧ (s.d_inner < s.d_outer ∧ s.d_inner < s.d_electron ∧
        s.d_inner < s.d_line) ∧ s.shell_id = 0) := by
  unfold montecarlo_dispatch at h
  split_ifs at h with h1 h2 h3 h4
  · simp only [outer_boundary_event] at h
    split_ifs at h with hs
    · simp at h
    · left
      simp only [Option.some.injEq, Sum.inl.injEq, Prod.mk.injEq] at h
      exact ⟨h.1.symm, h1, by simpa using hs⟩
  · simp only [inner_boundary_event] at h
    split_ifs at h with hs
    · simp at h
    · right
      simp only [Option.some.injEq, Sum.inl.injEq, Prod.mk.injEq] at h
      exact ⟨h.1.symm, h2, by omega⟩
  · simp at h
  · exact absurd h (line_event_no_exit st u mf s (z, s'))
  · simp at h

/-- An exit of a whole iteration carries reabsorbed = 0 or 1. -/
theorem step_exit_dichotomy (st : Storage) (u : ℕ → ℝ) (mf : ℕ) (s : PacketState)
    (z : ℤ) (s' : PacketState)
    (h : montecarlo_step st u mf s = some (Sum.inl (z, s'))) : z = 0 ∨ z = 1 := by
  unfold montecarlo_step at h
  rcases dispatch_exit_inv _ _ _ _ _ _ h with h0 | h1
  · exact Or.inl h0.1
  · exact Or.inr h1.1

/-- Every terminating run of the main loop returns reabsorbed = 0 or 1. -/
theorem run_exit_dichotomy (st : Storage) (u : ℕ → ℝ) (mf : ℕ) :
    ∀ (fuel : ℕ) (s : PacketState) (z : ℤ) (s' : PacketState),
      montecarlo_run st u mf fuel s = some (z, s') → z = 0 ∨ z = 1 := by
  intro fuel
  induction fuel with
  | zero =>
    intro s z s' h
    simp only [montecarlo_run] at h
    exact Option.noConfusion h
  | succ n ih =>
    intro s z s' h
    unfold montecarlo_run at h
    rcases hstep : montecarlo_step st u mf s with _ | res
    · rw [hstep] at h
      simp at h
    · rw [hstep] at h
      rcases res with ex | s2
      · simp only [Option.some.injEq] at h
        subst h
        exact step_exit_dichotomy st u mf s z s' hstep
      · exact ih s2 z s' h

/-- C6: the outcome flag of the event loop is exactly 0 or 1 — any
terminating run returns one of the two; at the moment of exit the flag
is 1 precisely when the inner-boundary branch fired in shell 0 and 0
precisely when the outer-boundary branch fired in the outermost shell —
and the driver epilogue writes (-nu, -E) when the flag is 1 and the
positive (nu, E) when it is 0. -/
theorem C6_reabsorbed_dichotomy :
    (∀ (st : Storage) (u : ℕ → ℝ) (mf fuel : ℕ) (s : PacketState) (z : ℤ)
        (s' : PacketState), montecarlo_run st u mf fuel s = some (z, s') →
        z = 0 ∨ z = 1) ∧
    (∀ (st : Storage) (u : ℕ → ℝ) (mf : ℕ) (s s' : PacketState) (z : ℤ),
        montecarlo_dispatch st u mf s = some (Sum.inl (z, s')) →
        ((z = 1 ↔ (s.d_inner < s.d_outer ∧ s.d_inner < s.d_electron ∧
            s.d_inner < s.d_line) ∧ s.shell_id = 0) ∧
         (z = 0 ↔ (s.d_outer < s.d_inner ∧ s.d_outer < s.d_electron ∧
            s.d_outer < s.d_line) ∧ ¬ s.shell_id < st.no_of_shells - 1))) ∧
    (∀ (nu energy : ℝ) (prev : ℝ × ℝ),
        record_output 1 nu energy prev = (-nu, -energy) ∧
        record_output 0 nu energy prev = (nu, energy)) := by
  refine ⟨?_, ?_, ?_⟩
  · intro st u mf fuel s z s' h
    exact run_exit_dichotomy st u mf fuel s z s' h
  · intro st u mf s s' z h
    rcases dispatch_exit_inv st u mf s z s' h with ⟨hz, hg, hs⟩ | ⟨hz, hg, hs⟩
    · subst hz
      constructor
      · constructor
        · intro h10
          exact absurd h10 (by norm_num)
        · rintro ⟨⟨hio, _, _⟩, _⟩
          exact absurd hg.1 (lt_asymm hio)
      · exact iff_of_true rfl ⟨hg, hs⟩
    · subst hz
      constructor
      · exact iff_of_true rfl ⟨hg, hs⟩
      · constructor
        · intro h10
          exact absurd h10 (by norm_num)
        · rintro ⟨⟨hoi, _, _⟩, _⟩
          exact absurd hg.1 (lt_asymm hoi)
  · intro nu energy prev
    constructor
    · unfold record_output
      norm_num
    · unfold record_output
      norm_num

/-- On a single-line table the binary search returns 1 (= L) at once:
the only initial configuration in which the driver can ever see the
off-the-red-end value L. -/
theorem binary_search_single (nu : List ℝ) (x : ℝ) : binary_search nu x 0 1 = 1 := rfl

/-- Unfolding one iteration of the loop runner. -/
theorem montecarlo_run_succ (st : Storage) (u : ℕ → ℝ) (mf fuel : ℕ)
    (s : PacketState) :
    montecarlo_run st u mf (fuel + 1) s =
      match montecarlo_step st u mf s with
      | none => none
      | some (Sum.inl z) => some z
      | some (Sum.inr s') => montecarlo_run st u mf fuel s' := rfl

/-- A continuing iteration just recurses on the new state. -/
theorem montecarlo_run_cont (st : Storage) (u : ℕ → ℝ) (mf fuel : ℕ)
    (s s' : PacketState) (h : montecarlo_step st u mf s = some (Sum.inr s')) :
    montecarlo_run st u mf (fuel + 1) s = montecarlo_run st u mf fuel s' := by
  rw [montecarlo_run_succ, h]

/-- The outer distance of the C5 packet: radial direction, r = 1,
r_outer = 2. -/
theorem c5_dist_outer : compute_distance2outer 1 1 2 = 1 := by
  unfold compute_distance2outer
  rw [show ((2 : ℝ) ^ 2 + ((1 : ℝ) ^ 2 - 1) * 1 ^ 2) = 2 ^ 2 by norm_num,
    Real.sqrt_sq (by norm_num : (0 : ℝ) ≤ 2)]
  norm_num

/-- The electron distance of the C5 packet: tau_event = 1 against the
tuned density 1/sigma_thomson. -/
theorem c5_dist_electron : compute_distance2electron 1 1 1 sigma_thomson = 1 := by
  unfold compute_distance2electron inverse_sigma_thomson
  rw [one_mul, mul_one_div, div_self (by unfold sigma_thomson; norm_num)]

/-- The first iteration of the C5 packet fills in the tied distances and
changes nothing else. -/
theorem c5_step_start :
    montecarlo_step storage_c5 u_c5 0 s_c5start = some (Sum.inr s_c5) := by
  unfold montecarlo_step montecarlo_dispatch
  norm_num [s_c5start, s_c5, storage_c5, miss_distance, c5_dist_outer, c5_dist_electron]

/-- The C5 packet's state is a fixed point of the loop iteration: the
recomputed distances coincide with the stored ones and no dispatch
guard fires. -/
theorem c5_step_fix :
    montecarlo_step storage_c5 u_c5 0 s_c5 = some (Sum.inr s_c5) := by
  unfold montecarlo_step montecarlo_dispatch
  norm_num [s_c5, storage_c5, miss_distance, c5_dist_outer, c5_dist_electron]

/-- From the stuck state the loop never returns, whatever the fuel. -/
theorem c5_run_fix : ∀ n : ℕ, montecarlo_run storage_c5 u_c5 0 n s_c5 = none := by
  intro n
  induction n with
  | zero => rfl
  | succ m ih =>
    rw [montecarlo_run_cont storage_c5 u_c5 0 m s_c5 s_c5 c5_step_fix]
    exact ih

/-- Entering montecarlo_one_packet with the driver-initialised C5 packet
is entering the loop at s_c5start: binary_search over the one-line table
returns 1 = L, so last_line = 1, and the first tau_event drawn from u_c5
is -log(exp(-1)) = 1. -/
theorem c5_one_packet_eq (fuel : ℕ) :
    montecarlo_one_packet storage_c5 u_c5 0 fuel (packet_init storage_c5 1 1 1) =
      montecarlo_run storage_c5 u_c5 0 fuel s_c5start := by
  unfold montecarlo_one_packet
  congr 1
  unfold packet_init s_c5start s_c5
  norm_num [storage_c5, binary_search_single, Real.log_exp, u_c5]

/-- C5 counterexample: the loop does not terminate for every packet.
The packet (nu, mu, E) = (1, 1, 1) in the C5 snapshot reaches, after its
driver initialisation and one loop iteration, a state in which
d_outer = d_electron = 1 while d_inner = d_line = miss: the minimum is
tied, no strict-comparison guard fires, the state repeats unchanged, and
montecarlo_one_packet returns no outcome for any iteration bound —
refuting termination, and with it the claimed progress property (this
iteration neither moves the packet nor advances the line cursor). -/
theorem C5_nontermination :
    ¬ ∃ (fuel : ℕ) (res : ℤ × PacketState),
        montecarlo_one_packet storage_c5 u_c5 0 fuel (packet_init storage_c5 1 1 1) =
          some res := by
  rintro ⟨fuel, res, h⟩
  rw [c5_one_packet_eq] at h
  cases fuel with
  | zero => exact Option.noConfusion h
  | succ n =>
    rw [montecarlo_run_cont storage_c5 u_c5 0 n s_c5start s_c5 c5_step_start,
      c5_run_fix n] at h
    exact Option.noConfusion h

/-- C5 (amended): when an iteration of the event loop does break out, it
does so only through the outer-boundary branch with reabsorbed = 0 or
the inner-boundary branch with reabsorbed = 1; but the loop does not
terminate for every packet (C5_nontermination): on a tie of the minimum
distance no handler executes and the state repeats forever, so the
claimed per-iteration progress guarantee does not hold. -/
theorem C5_exit_only_boundaries (st : Storage) (u : ℕ → ℝ) (mf : ℕ)
    (s : PacketState) (z : ℤ) (s' : PacketState)
    (h : montecarlo_step st u mf s = some (Sum.inl (z, s'))) :
    z = 0 ∨ z = 1 :=
  step_exit_dichotomy st u mf s z s' h

/-- C5 witness: a concrete exiting iteration (pending close_line, the
stored d_inner = -2 wins, shell 0, so the inner branch breaks out with
reabsorbed = 1). -/
theorem C5_exit_only_boundaries_witness :
    montecarlo_step storage_triv u_triv 0 s_c5w = some (Sum.inl (1, s_c5wx)) ∧
    ((1 : ℤ) = 0 ∨ (1 : ℤ) = 1) := by
  have h : montecarlo_step storage_triv u_triv 0 s_c5w = some (Sum.inl (1, s_c5wx)) := by
    unfold montecarlo_step montecarlo_dispatch inner_boundary_event move_packet
    norm_num [s_c5w, s_c5wx]
  exact ⟨h, C5_exit_only_boundaries storage_triv u_triv 0 s_c5w 1 s_c5wx h⟩

/-- C9: whenever the electron-scatter guard fires, the dispatched
iteration runs exactly the electron handler, and that handler leaves
the line cursor exactly as it was — current_line_id, last_line and
close_line unchanged, no new line search — while redrawing mu, drawing
a fresh tau_event and clearing recently_crossed_boundary. -/
theorem C9_electron_scatter_keeps_cursor (st : Storage) (u : ℕ → ℝ) (mf : ℕ)
    (s : PacketState)
    (h : s.d_electron < s.d_outer ∧ s.d_electron < s.d_inner ∧
      s.d_electron < s.d_line) :
    montecarlo_dispatch st u mf s = some (Sum.inr (electron_event st u s)) ∧
    (electron_event st u s).line_id = s.line_id ∧
    (electron_event st u s).last_line = s.last_line ∧
    (electron_event st u s).close_line = s.close_line ∧
    (electron_event st u s).recently_crossed_boundary = 0 ∧
    (electron_event st u s).mu = 2 * u s.rng - 1 ∧
    (electron_event st u s).tau_event = -Real.log (u (s.rng + 1)) := by
  obtain ⟨h1, h2, h3⟩ := h
  refine ⟨?_, ?_, ?_, ?_, ?_, ?_, ?_⟩
  · unfold montecarlo_dispatch
    rw [if_neg ?_, if_neg ?_, if_pos ⟨h1, h2, h3⟩]
    · rintro ⟨_, hb, _⟩
      exact absurd h2 (lt_asymm hb)
    · rintro ⟨_, hb, _⟩
      exact absurd h1 (lt_asymm hb)
  all_goals simp [electron_event]

/-- C9 witness: the theorem at the concrete state s_c9, where the
stored d_electron = 1 beats d_outer = 2, d_inner = 3 and d_line = 4. -/
theorem C9_electron_scatter_keeps_cursor_witness :
    (s_c9.d_electron < s_c9.d_outer ∧ s_c9.d_electron < s_c9.d_inner ∧
      s_c9.d_electron < s_c9.d_line) ∧
    (montecarlo_dispatch storage_triv u_triv 0 s_c9 =
        some (Sum.inr (electron_event storage_triv u_triv s_c9)) ∧
      (electron_event storage_triv u_triv s_c9).line_id = s_c9.line_id ∧
      (electron_event storage_triv u_triv s_c9).last_line = s_c9.last_line ∧
      (electron_event storage_triv u_triv s_c9).close_line = s_c9.close_line ∧
      (electron_event storage_triv u_triv s_c9).recently_crossed_boundary = 0 ∧
      (electron_event storage_triv u_triv s_c9).mu = 2 * u_triv s_c9.rng - 1 ∧
      (electron_event storage_triv u_triv s_c9).tau_event =
        -Real.log (u_triv (s_c9.rng + 1))) := by
  have hg : s_c9.d_electron < s_c9.d_outer ∧ s_c9.d_electron < s_c9.d_inner ∧
      s_c9.d_electron < s_c9.d_line := by
    norm_num [s_c9]
  exact ⟨hg, C9_electron_scatter_keeps_cursor storage_triv u_triv 0 s_c9 hg⟩

end Tardis
